import Mathlib

/-!
Shallow embedding of the quiz lifecycle and grading engine of the
university-cms backend (controllers/quizController.js, models/Quiz.js,
routes/quizzes.js), together with theorems checking the specification's
claims about it.

Modelling conventions:
- Mongo ObjectIds are modelled as `Nat`.
- JavaScript `Date` values are modelled as `Int` (epoch milliseconds);
  only their ordering is used by the code.
- JavaScript numbers in scoring positions (marks, score, indices) are
  modelled as `Int`; the floating-point `percentage` is modelled as `ℚ`.
- `quiz.questions[answer.questionIndex]` returns `undefined` out of range,
  which the code's truthiness test skips: modelled by an `Option` lookup.
- Each controller is a pure function from its read state to an
  `Except QuizError` result carrying the saved document and the response.
-/

namespace QuizEngine

/-- One question of a quiz, as in questionSchema of models/Quiz.js:
questionText, options, correctAnswer (index into options), marks. -/
structure Question where
  questionText : String
  options : List String
  correctAnswer : Int
  marks : Int
deriving DecidableEq, Repr

/-- One submitted answer: {questionIndex, selectedOption}. -/
structure Answer where
  questionIndex : Int
  selectedOption : Int
deriving DecidableEq, Repr

/-- Attempt status enum: 'in-progress' or 'completed'. -/
inductive AttemptStatus where
  | inProgress
  | completed
deriving DecidableEq, Repr

/-- One attempt embedded in a quiz document. Fields that are absent until
submission (score, percentage, submittedAt) are `Option`; mongoose defaults
the answers array to []. -/
structure Attempt where
  student : Nat
  answers : List Answer
  score : Option Int
  percentage : Option ℚ
  startedAt : Int
  submittedAt : Option Int
  status : AttemptStatus
deriving DecidableEq, Repr

/-- The Quiz document of models/Quiz.js. -/
structure Quiz where
  title : String
  description : String
  subject : Nat
  teacher : Nat
  questions : List Question
  totalMarks : Int
  duration : Int
  startDate : Int
  endDate : Int
  attempts : List Attempt
  isActive : Bool
deriving DecidableEq, Repr

/-- The error outcomes of the quiz controllers (HTTP 404/403/400/500 bodies). -/
inductive QuizError where
  | QuizNotFound
  | SubjectNotFound
  | Forbidden
  | QuizNotAvailable
  | AlreadyAttempted
  | NoActiveAttempt
  | ValidationError
deriving DecidableEq, Repr

/-- JavaScript array indexing `questions[i]`: `undefined` (none) when the
index is negative or past the end. -/
def jsIndex (questions : List Question) (i : Int) : Option Question :=
  if 0 ≤ i then questions[i.toNat]? else none

/-- The score accumulation of submitQuiz, translated from
`answers.forEach(...)` with its running mutable `score`:
`const question = quiz.questions[answer.questionIndex];
 if (question && question.correctAnswer === answer.selectedOption)
   score += question.marks`. -/
def computeScore (questions : List Question) (answers : List Answer) : Int :=
  answers.foldl (fun score a =>
    match jsIndex questions a.questionIndex with
    | some q => if q.correctAnswer = a.selectedOption then score + q.marks else score
    | none => score) 0

/-- The marks one answer contributes, as the spec describes scoring: look up
the question at the answer's index; if it exists and its correct option index
equals the selected option, the question's marks, else nothing. -/
def answerMarks (questions : List Question) (a : Answer) : Int :=
  match jsIndex questions a.questionIndex with
  | some q => if q.correctAnswer = a.selectedOption then q.marks else 0
  | none => 0

/-- The score as the spec words it: the sum of the independent contributions
of the answers, in order. -/
def specScore (questions : List Question) (answers : List Answer) : Int :=
  (answers.map (answerMarks questions)).sum

/-- The predicate of submitQuiz's attempt lookup:
`a.student.toString() === req.user._id.toString() && a.status === 'in-progress'`. -/
def isActiveFor (studentId : Nat) (a : Attempt) : Bool :=
  a.student == studentId && a.status == AttemptStatus.inProgress

/-- In-place mutation of the first list element found by a predicate, as JS
`array.find(...)` returning a live reference that is then mutated. -/
def updateFirst (p : Attempt → Bool) (f : Attempt → Attempt) : List Attempt → List Attempt
  | [] => []
  | a :: rest => if p a then f a :: rest else a :: updateFirst p f rest

/-- The question shape startQuiz returns: the map
`q => ({_id, questionText, options, marks})` drops correctAnswer. -/
structure QuestionPayload where
  questionText : String
  options : List String
  marks : Int
deriving DecidableEq, Repr

def stripQuestion (q : Question) : QuestionPayload :=
  { questionText := q.questionText, options := q.options, marks := q.marks }

/-- The quiz payload startQuiz responds with: `quiz.toObject()` with the
questions replaced by their stripped shapes (all other fields kept). -/
structure QuizPayload where
  title : String
  description : String
  subject : Nat
  teacher : Nat
  questions : List QuestionPayload
  totalMarks : Int
  duration : Int
  startDate : Int
  endDate : Int
  attempts : List Attempt
  isActive : Bool
deriving DecidableEq, Repr

def toPayload (quiz : Quiz) : QuizPayload :=
  { title := quiz.title
    description := quiz.description
    subject := quiz.subject
    teacher := quiz.teacher
    questions := quiz.questions.map stripQuestion
    totalMarks := quiz.totalMarks
    duration := quiz.duration
    startDate := quiz.startDate
    endDate := quiz.endDate
    attempts := quiz.attempts
    isActive := quiz.isActive }

/-- startQuiz (controllers/quizController.js lines 106-151), for a quiz that
was found: availability window check, already-attempted check, push of a new
in-progress attempt, save, and response without correct answers. -/
def startQuiz (quiz : Quiz) (studentId : Nat) (now : Int) :
    Except QuizError (Quiz × QuizPayload) :=
  if now < quiz.startDate ∨ now > quiz.endDate then
    Except.error QuizError.QuizNotAvailable
  else
    match quiz.attempts.find? (fun a => a.student == studentId) with
    | some _ => Except.error QuizError.AlreadyAttempted
    | none =>
      let quiz1 : Quiz := { quiz with attempts := quiz.attempts ++
        [{ student := studentId, answers := [], score := none, percentage := none,
           startedAt := now, submittedAt := none, status := AttemptStatus.inProgress }] }
      Except.ok (quiz1, toPayload quiz1)

/-- The JSON body of a successful submitQuiz response (without the fixed
message string). -/
structure SubmitResult where
  score : Int
  totalMarks : Int
  percentage : ℚ
deriving DecidableEq, Repr

/-- The in-place mutation submitQuiz applies to the found attempt:
answers, score, percentage, submittedAt and status are assigned. -/
def completeAttempt (answers : List Answer) (score : Int) (percentage : ℚ) (now : Int) (a : Attempt) : Attempt :=
  { a with
    answers := answers
    score := some score
    percentage := some percentage
    submittedAt := some now
    status := AttemptStatus.completed }

/-- submitQuiz (controllers/quizController.js lines 156-202), for a quiz that
was found: find the in-progress attempt, score the answers, mutate the
attempt in place, save, respond with score, totalMarks and percentage. -/
def submitQuiz (quiz : Quiz) (studentId : Nat) (answers : List Answer) (now : Int) :
    Except QuizError (Quiz × SubmitResult) :=
  match quiz.attempts.find? (isActiveFor studentId) with
  | none => Except.error QuizError.NoActiveAttempt
  | some _ =>
    let score := computeScore quiz.questions answers
    let percentage : ℚ := ((score : ℚ) / (quiz.totalMarks : ℚ)) * 100
    let newAttempts := updateFirst (isActiveFor studentId) (completeAttempt answers score percentage now) quiz.attempts
    let quiz1 : Quiz := { quiz with attempts := newAttempts }
    Except.ok (quiz1, { score := score, totalMarks := quiz.totalMarks, percentage := percentage })

/-- The requesting principal's role. -/
inductive Role where
  | admin
  | teacher
  | student
deriving DecidableEq, Repr

/-- The authenticated requester (req.user). -/
structure Requester where
  id : Nat
  role : Role
deriving DecidableEq, Repr

/-- One row of the results list getQuizResults returns. -/
structure ResultEntry where
  student : Nat
  score : Option Int
  percentage : Option ℚ
  submittedAt : Option Int
deriving DecidableEq, Repr

/-- The body of a successful getQuizResults response. -/
structure QuizResults where
  quizTitle : String
  totalMarks : Int
  totalStudents : Nat
  results : List ResultEntry
deriving DecidableEq, Repr

/-- The reduction getQuizResults applies to a completed attempt:
`a => ({student: a.student, score: a.score, percentage: a.percentage,
submittedAt: a.submittedAt})`. -/
def reduceAttempt (a : Attempt) : ResultEntry :=
  { student := a.student, score := a.score, percentage := a.percentage,
    submittedAt := a.submittedAt }

/-- getQuizResults (controllers/quizController.js lines 207-240), for a quiz
that was found: owner-or-admin check, then completed attempts reduced to
{student, score, percentage, submittedAt}. -/
def getQuizResults (quiz : Quiz) (requester : Requester) :
    Except QuizError QuizResults :=
  if quiz.teacher ≠ requester.id ∧ requester.role ≠ Role.admin then
    Except.error QuizError.Forbidden
  else
    let results := (quiz.attempts.filter (fun a => a.status == AttemptStatus.completed)).map reduceAttempt
    Except.ok { quizTitle := quiz.title, totalMarks := quiz.totalMarks,
                totalStudents := results.length, results := results }

/-- A subject document, restricted to the fields createQuiz reads. -/
structure Subject where
  id : Nat
  teacher : Nat
deriving DecidableEq, Repr

/-- The request body of POST /api/quizzes. -/
structure CreateQuizRequest where
  title : String
  description : String
  subjectId : Nat
  questions : List Question
  duration : Int
  startDate : Int
  endDate : Int
deriving DecidableEq, Repr

/-- The per-question validation mongoose runs at Quiz.create, from
questionSchema of models/Quiz.js: questionText required, correctAnswer
required with min 0, marks required with min 1. No constraint relates
correctAnswer to options.length, and an empty options array passes. -/
def questionSchemaValid (q : Question) : Bool :=
  q.questionText != "" && decide (0 ≤ q.correctAnswer) && decide (1 ≤ q.marks)

/-- The quiz-level validation mongoose runs at Quiz.create, from quizSchema
of models/Quiz.js: title required, duration min 1, and each embedded
question validated by questionSchema. -/
def quizSchemaValid (quiz : Quiz) : Bool :=
  quiz.title != "" && decide (1 ≤ quiz.duration) && quiz.questions.all questionSchemaValid

/-- The express-validator chain quizValidation of routes/quizzes.js:
title nonempty, questions a nonempty array, duration an integer at least 1
(subjectId presence and date well-formedness hold by typing here). The
chain only annotates the request: no handler in the repository ever calls
validationResult, so these checks reject nothing. -/
def quizValidation (r : CreateQuizRequest) : Bool :=
  r.title != "" && decide (1 ≤ r.questions.length) && decide (1 ≤ r.duration)

/-- createQuiz (controllers/quizController.js lines 9-44): resolve the
subject, check the requesting teacher owns it, sum the marks with
`questions.reduce((sum, q) => sum + q.marks, 0)`, and persist through
Quiz.create, which applies the schema validation. -/
def createQuiz (subjects : List Subject) (userId : Nat) (r : CreateQuizRequest) :
    Except QuizError Quiz :=
  match subjects.find? (fun s => s.id == r.subjectId) with
  | none => Except.error QuizError.SubjectNotFound
  | some subject =>
    if subject.teacher != userId then
      Except.error QuizError.Forbidden
    else
      let totalMarks := r.questions.foldl (fun sum q => sum + q.marks) 0
      let quiz : Quiz :=
        { title := r.title
          description := r.description
          subject := r.subjectId
          teacher := userId
          questions := r.questions
          totalMarks := totalMarks
          duration := r.duration
          startDate := r.startDate
          endDate := r.endDate
          attempts := []
          isActive := true }
      if quizSchemaValid quiz then Except.ok quiz else Except.error QuizError.ValidationError

/-- POST /api/quizzes as routed: the quizValidation chain runs but its
result is never read (validationResult is called nowhere), so every request
reaches the controller unchanged. -/
def createQuizRoute (subjects : List Subject) (userId : Nat) (r : CreateQuizRequest) :
    Except QuizError Quiz :=
  createQuiz subjects userId r

/-- Two quiz documents that agree on every field except, possibly, the
correctAnswer of each question: same title, dates, attempts, and questions
with the same texts, options and marks. -/
def agreeExceptCorrectAnswer (q1 q2 : Quiz) : Prop :=
  q1.title = q2.title ∧ q1.description = q2.description ∧ q1.subject = q2.subject ∧
  q1.teacher = q2.teacher ∧ q1.questions.map stripQuestion = q2.questions.map stripQuestion ∧
  q1.totalMarks = q2.totalMarks ∧ q1.duration = q2.duration ∧
  q1.startDate = q2.startDate ∧ q1.endDate = q2.endDate ∧
  q1.attempts = q2.attempts ∧ q1.isActive = q2.isActive

instance (q1 q2 : Quiz) : Decidable (agreeExceptCorrectAnswer q1 q2) := by
  unfold agreeExceptCorrectAnswer
  infer_instance

/-- First question of the spec's worked example: marks 5, correct index 1. -/
def exQuestion0 : Question :=
  { questionText := "Q1", options := ["a", "b"], correctAnswer := 1, marks := 5 }

/-- Second question of the spec's worked example: marks 3, correct index 0. -/
def exQuestion1 : Question :=
  { questionText := "Q2", options := ["c", "d"], correctAnswer := 0, marks := 3 }

/-- An in-progress attempt of student 7, as startQuiz creates it. -/
def exAttempt : Attempt :=
  { student := 7, answers := [], score := none, percentage := none,
    startedAt := 10, submittedAt := none, status := AttemptStatus.inProgress }

/-- The spec's worked example quiz: two questions of marks 5 and 3 with
correct indices 1 and 0, totalMarks 8, window [0, 100], one in-progress
attempt of student 7. -/
def exampleQuiz : Quiz :=
  { title := "example"
    description := ""
    subject := 1
    teacher := 2
    questions := [exQuestion0, exQuestion1]
    totalMarks := 8
    duration := 30
    startDate := 0
    endDate := 100
    attempts := [exAttempt]
    isActive := true }

/-- The all-correct answer list of the worked example. -/
def exAnswersRight : List Answer := [⟨0, 1⟩, ⟨1, 0⟩]

/-- The all-wrong answer list of the worked example. -/
def exAnswersWrong : List Answer := [⟨0, 0⟩, ⟨1, 1⟩]

/-- exampleQuiz with both correct option indices flipped and nothing else
changed. -/
def exampleQuizAlt : Quiz :=
  { exampleQuiz with questions :=
      [{ exQuestion0 with correctAnswer := 0 }, { exQuestion1 with correctAnswer := 1 }] }

/-- A subject directory with one subject owned by teacher 2. -/
def oneSubject : List Subject := [{ id := 1, teacher := 2 }]

/-- A question whose options list is empty, so its correctAnswer 0 indexes
no option at all. -/
def badQuestion : Question :=
  { questionText := "pick", options := [], correctAnswer := 0, marks := 1 }

/-- A create request carrying badQuestion, otherwise well formed. -/
def badRequest : CreateQuizRequest :=
  { title := "t", description := "", subjectId := 1, questions := [badQuestion],
    duration := 10, startDate := 0, endDate := 100 }

/-- The document createQuizRoute persists for badRequest. -/
def badQuizCreated : Quiz :=
  { title := "t"
    description := ""
    subject := 1
    teacher := 2
    questions := [badQuestion]
    totalMarks := 1
    duration := 10
    startDate := 0
    endDate := 100
    attempts := []
    isActive := true }

/-- A create request whose single question is well formed. -/
def goodRequest : CreateQuizRequest :=
  { title := "t2", description := "", subjectId := 1, questions := [exQuestion0],
    duration := 10, startDate := 0, endDate := 100 }

/-- A quiz open in [0, 100] that nobody has attempted yet. -/
def raceQuiz : Quiz :=
  { title := "race"
    description := ""
    subject := 1
    teacher := 2
    questions := [exQuestion0]
    totalMarks := 5
    duration := 10
    startDate := 0
    endDate := 100
    attempts := []
    isActive := true }

/-- The saved document of the worked example submission (computed from the
engine itself so the equation in the frame witness is definitional). -/
def exQuiz1 : Quiz :=
  match submitQuiz exampleQuiz 7 exAnswersRight 50 with
  | Except.ok (q, _) => q
  | Except.error _ => exampleQuiz

/-- The response of the worked example submission. -/
def exRes : SubmitResult :=
  match submitQuiz exampleQuiz 7 exAnswersRight 50 with
  | Except.ok (_, r) => r
  | Except.error _ => { score := 0, totalMarks := 0, percentage := 0 }

/-- One engine operation on a quiz document, for reasoning about sequential
histories. -/
inductive QuizOp where
  | start (studentId : Nat) (now : Int)
  | submit (studentId : Nat) (answers : List Answer) (now : Int)

/-- The quiz document after one sequential operation: the saved document on
success, the unchanged document when the controller returned an error. -/
def applyOp (quiz : Quiz) : QuizOp → Quiz
  | QuizOp.start s now =>
    match startQuiz quiz s now with
    | Except.ok (q, _) => q
    | Except.error _ => quiz
  | QuizOp.submit s answers now =>
    match submitQuiz quiz s answers now with
    | Except.ok (q, _) => q
    | Except.error _ => quiz

/-- The quiz document after a sequential history of operations. -/
def applyOps (quiz : Quiz) (ops : List QuizOp) : Quiz :=
  ops.foldl applyOp quiz

/-- At most one attempt per student: the students of the attempts list are
pairwise distinct. -/
def atMostOnePerStudent (attempts : List Attempt) : Prop :=
  (attempts.map Attempt.student).Nodup

instance (attempts : List Attempt) : Decidable (atMostOnePerStudent attempts) := by
  unfold atMostOnePerStudent
  infer_instance

/-- Whether a controller call succeeded. -/
def startSucceeded (r : Except QuizError QuizPayload) : Bool :=
  match r with
  | Except.ok _ => true
  | Except.error _ => false

/-- Two startQuiz requests for the same (quiz, student) whose document reads
both happen before either save — the interleaving the controller's
read-check-append-save sequence admits: each call computes its response from
the same stored snapshot. -/
def concurrentStartResponses (store : Quiz) (studentId : Nat) (now : Int) :
    Except QuizError QuizPayload × Except QuizError QuizPayload :=
  ((startQuiz store studentId now).map Prod.snd,
   (startQuiz store studentId now).map Prod.snd)

theorem score_step (questions : List Question) (init : Int) (a : Answer) :
    (match jsIndex questions a.questionIndex with
     | some q => if q.correctAnswer = a.selectedOption then init + q.marks else init
     | none => init) = init + answerMarks questions a := by
  unfold answerMarks
  cases jsIndex questions a.questionIndex with
  | none => simp
  | some q => by_cases hc : q.correctAnswer = a.selectedOption <;> simp [hc]

theorem foldl_score_shift (questions : List Question) (answers : List Answer) (init : Int) :
    (answers.foldl (fun score a =>
      match jsIndex questions a.questionIndex with
      | some q => if q.correctAnswer = a.selectedOption then score + q.marks else score
      | none => score) init) = init + specScore questions answers := by
  induction answers generalizing init with
  | nil => simp [specScore]
  | cons a rest ih =>
    simp only [List.foldl_cons, specScore, List.map_cons, List.sum_cons]
    rw [ih, score_step]
    unfold specScore
    ring

theorem computeScore_eq_specScore (questions : List Question) (answers : List Answer) :
    computeScore questions answers = specScore questions answers := by
  unfold computeScore
  rw [foldl_score_shift]
  ring

theorem isActiveFor_eq_true (studentId : Nat) (a : Attempt) :
    isActiveFor studentId a = true ↔
      a.student = studentId ∧ a.status = AttemptStatus.inProgress := by
  unfold isActiveFor
  simp

/-- C1: submitQuiz scores each answer independently, in order: an answer
contributes exactly its question's marks when the question at its index
exists and that question's correct option index equals the selected option;
out-of-range or unmatched indices contribute nothing and duplicates each
contribute again; the response carries the score and
percentage = 100·score/totalMarks (precondition totalMarks > 0). On the
two-question example (marks 5 and 3, correct indices 1 and 0), answers
[{0,1},{1,0}] score 8 with percentage 100 and answers [{0,0},{1,1}] score 0
with percentage 0. -/
theorem submitQuiz_scoring (quiz : Quiz) (studentId : Nat) (answers : List Answer) (now : Int)
    (hact : ∃ a ∈ quiz.attempts, isActiveFor studentId a = true)
    (hm : 0 < quiz.totalMarks) :
    ((submitQuiz quiz studentId answers now).map Prod.snd =
      Except.ok { score := specScore quiz.questions answers
                  totalMarks := quiz.totalMarks
                  percentage := 100 * (specScore quiz.questions answers : ℚ) / (quiz.totalMarks : ℚ) })
    ∧ (submitQuiz exampleQuiz 7 exAnswersRight 50).map Prod.snd =
        Except.ok { score := 8, totalMarks := 8, percentage := 100 }
    ∧ (submitQuiz exampleQuiz 7 exAnswersWrong 50).map Prod.snd =
        Except.ok { score := 0, totalMarks := 8, percentage := 0 } := by
  refine ⟨?_, ?_, ?_⟩
  · obtain ⟨a, ha, hp⟩ := hact
    cases hf : quiz.attempts.find? (isActiveFor studentId) with
    | none =>
      rw [List.find?_eq_none] at hf
      exact absurd hp (hf a ha)
    | some a0 =>
      unfold submitQuiz
      rw [hf]
      simp only [Except.map, computeScore_eq_specScore]
      rw [show ((specScore quiz.questions answers : ℚ) / (quiz.totalMarks : ℚ)) * 100 =
        100 * (specScore quiz.questions answers : ℚ) / (quiz.totalMarks : ℚ) from by ring]
  · have h0 : (submitQuiz exampleQuiz 7 exAnswersRight 50).map Prod.snd =
        Except.ok { score := computeScore exampleQuiz.questions exAnswersRight
                    totalMarks := exampleQuiz.totalMarks
                    percentage := ((computeScore exampleQuiz.questions exAnswersRight : ℚ) /
                      (exampleQuiz.totalMarks : ℚ)) * 100 } := rfl
    rw [h0, show computeScore exampleQuiz.questions exAnswersRight = 8 from by decide,
      show exampleQuiz.totalMarks = 8 from rfl]
    norm_num
  · have h0 : (submitQuiz exampleQuiz 7 exAnswersWrong 50).map Prod.snd =
        Except.ok { score := computeScore exampleQuiz.questions exAnswersWrong
                    totalMarks := exampleQuiz.totalMarks
                    percentage := ((computeScore exampleQuiz.questions exAnswersWrong : ℚ) /
                      (exampleQuiz.totalMarks : ℚ)) * 100 } := rfl
    rw [h0, show computeScore exampleQuiz.questions exAnswersWrong = 0 from by decide,
      show exampleQuiz.totalMarks = 8 from rfl]
    norm_num

/-- Witness for C1 at the worked example quiz: the in-progress attempt of
student 7 exists and totalMarks is positive, and the general scoring law
applies there. -/
theorem submitQuiz_scoring_witness :
    (submitQuiz exampleQuiz 7 exAnswersRight 50).map Prod.snd =
      Except.ok { score := specScore exampleQuiz.questions exAnswersRight
                  totalMarks := exampleQuiz.totalMarks
                  percentage := 100 * (specScore exampleQuiz.questions exAnswersRight : ℚ) /
                    (exampleQuiz.totalMarks : ℚ) } :=
  (submitQuiz_scoring exampleQuiz 7 exAnswersRight 50 (by decide) (by decide)).1

theorem updateFirst_map_student (p : Attempt → Bool) (f : Attempt → Attempt)
    (hf : ∀ a, (f a).student = a.student) (l : List Attempt) :
    (updateFirst p f l).map Attempt.student = l.map Attempt.student := by
  induction l with
  | nil => rfl
  | cons a rest ih =>
    unfold updateFirst
    by_cases hp : p a = true
    · simp [hp, hf]
    · simp [hp, ih]

theorem startQuiz_ok_students (quiz : Quiz) (studentId : Nat) (now : Int)
    (quiz1 : Quiz) (payload : QuizPayload)
    (h : startQuiz quiz studentId now = Except.ok (quiz1, payload)) :
    quiz1.attempts.map Attempt.student = quiz.attempts.map Attempt.student ++ [studentId] ∧
    studentId ∉ quiz.attempts.map Attempt.student := by
  unfold startQuiz at h
  by_cases hw : now < quiz.startDate ∨ now > quiz.endDate
  · rw [if_pos hw] at h
    cases h
  · rw [if_neg hw] at h
    cases hf : quiz.attempts.find? (fun a => a.student == studentId) with
    | some a =>
      rw [hf] at h
      cases h
    | none =>
      rw [hf] at h
      simp only [Except.ok.injEq, Prod.mk.injEq] at h
      obtain ⟨h1, -⟩ := h
      subst h1
      constructor
      · simp
      · rw [List.find?_eq_none] at hf
        simp only [List.mem_map, not_exists]
        rintro a
        rintro ⟨ha, hs⟩
        have := hf a ha
        simp [hs] at this

theorem submitQuiz_ok_students (quiz : Quiz) (studentId : Nat) (answers : List Answer)
    (now : Int) (quiz1 : Quiz) (r : SubmitResult)
    (h : submitQuiz quiz studentId answers now = Except.ok (quiz1, r)) :
    quiz1.attempts.map Attempt.student = quiz.attempts.map Attempt.student := by
  unfold submitQuiz at h
  cases hf : quiz.attempts.find? (isActiveFor studentId) with
  | none =>
    rw [hf] at h
    cases h
  | some a0 =>
    rw [hf] at h
    simp only [Except.ok.injEq, Prod.mk.injEq] at h
    obtain ⟨h1, -⟩ := h
    subst h1
    apply updateFirst_map_student
    intro a
    rfl

theorem applyOp_keeps_uniqueness (quiz : Quiz) (op : QuizOp)
    (h : atMostOnePerStudent quiz.attempts) :
    atMostOnePerStudent (applyOp quiz op).attempts := by
  cases op with
  | start s now =>
    cases hs : startQuiz quiz s now with
    | error e =>
      simp only [applyOp, hs]
      exact h
    | ok qp =>
      obtain ⟨q1, p⟩ := qp
      obtain ⟨hmap, hmem⟩ := startQuiz_ok_students quiz s now q1 p hs
      simp only [applyOp, hs]
      unfold atMostOnePerStudent at h ⊢
      rw [hmap]
      simp [List.nodup_append, h, hmem]
  | submit s answers now =>
    cases hs : submitQuiz quiz s answers now with
    | error e =>
      simp only [applyOp, hs]
      exact h
    | ok qp =>
      obtain ⟨q1, r⟩ := qp
      have hmap := submitQuiz_ok_students quiz s answers now q1 r hs
      simp only [applyOp, hs]
      unfold atMostOnePerStudent at h ⊢
      rw [hmap]
      exact h

theorem applyOps_keeps_uniqueness (quiz : Quiz) (ops : List QuizOp)
    (h : atMostOnePerStudent quiz.attempts) :
    atMostOnePerStudent (applyOps quiz ops).attempts := by
  induction ops generalizing quiz with
  | nil => exact h
  | cons op rest ih =>
    unfold applyOps
    rw [List.foldl_cons]
    exact ih (applyOp quiz op) (applyOp_keeps_uniqueness quiz op h)

/-- C2: under any sequential history of startQuiz and submitQuiz operations,
a quiz whose attempts list has at most one attempt per student keeps that
property; startQuiz never succeeds (appends nothing) while any attempt for
the student exists — whatever its status — and reports AlreadyAttempted
whenever the availability gate passes; and a successful submitQuiz leaves
the number of attempts unchanged. -/
theorem attempt_uniqueness (quiz : Quiz) (ops : List QuizOp)
    (h : atMostOnePerStudent quiz.attempts) :
    atMostOnePerStudent (applyOps quiz ops).attempts
    ∧ (∀ s now, (∃ a ∈ quiz.attempts, a.student = s) →
        (∀ r, startQuiz quiz s now ≠ Except.ok r)
        ∧ (quiz.startDate ≤ now → now ≤ quiz.endDate →
            startQuiz quiz s now = Except.error QuizError.AlreadyAttempted))
    ∧ (∀ s answers now quiz1 r, submitQuiz quiz s answers now = Except.ok (quiz1, r) →
        quiz1.attempts.length = quiz.attempts.length) := by
  refine ⟨applyOps_keeps_uniqueness quiz ops h, ?_, ?_⟩
  · intro s now hex
    have hfind : quiz.attempts.find? (fun a => a.student == s) ≠ none := by
      intro hnone
      rw [List.find?_eq_none] at hnone
      obtain ⟨a, ha, hs⟩ := hex
      have := hnone a ha
      simp [hs] at this
    constructor
    · intro r hok
      unfold startQuiz at hok
      by_cases hw : now < quiz.startDate ∨ now > quiz.endDate
      · rw [if_pos hw] at hok
        cases hok
      · rw [if_neg hw] at hok
        cases hf : quiz.attempts.find? (fun a => a.student == s) with
        | none => exact hfind hf
        | some a =>
          rw [hf] at hok
          cases hok
    · intro h1 h2
      unfold startQuiz
      have hw : ¬ (now < quiz.startDate ∨ now > quiz.endDate) := by
        push_neg
        exact ⟨h1, h2⟩
      rw [if_neg hw]
      cases hf : quiz.attempts.find? (fun a => a.student == s) with
      | none => exact absurd hf hfind
      | some a => rfl
  · intro s answers now quiz1 r hok
    have := submitQuiz_ok_students quiz s answers now quiz1 r hok
    calc quiz1.attempts.length = (quiz1.attempts.map Attempt.student).length := by simp
    _ = (quiz.attempts.map Attempt.student).length := by rw [this]
    _ = quiz.attempts.length := by simp

/-- Witness for C2: the example quiz satisfies the uniqueness invariant, and
after student 7 starts again (rejected) and submits, it still does; the
existing attempt of student 7 blocks a new start. -/
theorem attempt_uniqueness_witness :
    atMostOnePerStudent (applyOps exampleQuiz
      [QuizOp.start 7 50, QuizOp.submit 7 exAnswersRight 60]).attempts :=
  (attempt_uniqueness exampleQuiz [QuizOp.start 7 50, QuizOp.submit 7 exAnswersRight 60]
    (by decide)).1

theorem no_active_after_complete (studentId : Nat) (answers : List Answer) (score : Int)
    (pct : ℚ) (now : Int) (l : List Attempt) (hnd : (l.map Attempt.student).Nodup) :
    (updateFirst (isActiveFor studentId) (completeAttempt answers score pct now) l).find?
      (isActiveFor studentId) = none := by
  induction l with
  | nil => rfl
  | cons a rest ih =>
    simp only [List.map_cons, List.nodup_cons] at hnd
    obtain ⟨hna, hrest⟩ := hnd
    unfold updateFirst
    by_cases hp : isActiveFor studentId a = true
    · rw [if_pos hp]
      have hhead : ¬ isActiveFor studentId (completeAttempt answers score pct now a) = true := by
        unfold isActiveFor completeAttempt
        simp
      rw [List.find?_cons_of_neg _ hhead, List.find?_eq_none]
      intro b hb
      have hstud : a.student = studentId := ((isActiveFor_eq_true studentId a).mp hp).1
      rw [isActiveFor_eq_true]
      rintro ⟨hbs, -⟩
      exact hna (List.mem_map.mpr ⟨b, hb, by rw [hbs, hstud]⟩)
    · rw [if_neg hp, List.find?_cons_of_neg _ hp]
      exact ih hrest

/-- C3: submitQuiz fails with NoActiveAttempt exactly when no in-progress
attempt of the student exists, and succeeds whenever one does; after a
successful submission (which completes the attempt) a second submission
fails with NoActiveAttempt; and the response is the same at every
submission time — no deadline is checked, a late submission is scored
identically. -/
theorem submitQuiz_active_iff (quiz : Quiz) (studentId : Nat) (answers : List Answer)
    (now : Int) (h : atMostOnePerStudent quiz.attempts) :
    (submitQuiz quiz studentId answers now = Except.error QuizError.NoActiveAttempt ↔
      ¬ ∃ a ∈ quiz.attempts, a.student = studentId ∧ a.status = AttemptStatus.inProgress)
    ∧ ((∃ a ∈ quiz.attempts, a.student = studentId ∧ a.status = AttemptStatus.inProgress) →
        ∃ quiz1 r, submitQuiz quiz studentId answers now = Except.ok (quiz1, r))
    ∧ (∀ quiz1 r, submitQuiz quiz studentId answers now = Except.ok (quiz1, r) →
        ∀ answers2 now2, submitQuiz quiz1 studentId answers2 now2 =
          Except.error QuizError.NoActiveAttempt)
    ∧ (∀ now2, (submitQuiz quiz studentId answers now).map Prod.snd =
        (submitQuiz quiz studentId answers now2).map Prod.snd) := by
  refine ⟨?_, ?_, ?_, ?_⟩
  · cases hf : quiz.attempts.find? (isActiveFor studentId) with
    | none =>
      unfold submitQuiz
      rw [hf]
      constructor
      · intro _
        rw [List.find?_eq_none] at hf
        rintro ⟨a, ha, hs, hst⟩
        exact hf a ha ((isActiveFor_eq_true studentId a).mpr ⟨hs, hst⟩)
      · intro _
        rfl
    | some a0 =>
      unfold submitQuiz
      rw [hf]
      constructor
      · intro hbad
        cases hbad
      · intro hne
        exfalso
        apply hne
        refine ⟨a0, List.mem_of_find?_eq_some hf, ?_⟩
        exact (isActiveFor_eq_true studentId a0).mp (List.find?_some hf)
  · rintro ⟨a, ha, hs, hst⟩
    cases hf : quiz.attempts.find? (isActiveFor studentId) with
    | none =>
      rw [List.find?_eq_none] at hf
      exact absurd ((isActiveFor_eq_true studentId a).mpr ⟨hs, hst⟩) (hf a ha)
    | some a0 =>
      unfold submitQuiz
      rw [hf]
      exact ⟨_, _, rfl⟩
  · intro quiz1 r hok answers2 now2
    unfold submitQuiz at hok
    cases hf : quiz.attempts.find? (isActiveFor studentId) with
    | none =>
      rw [hf] at hok
      cases hok
    | some a0 =>
      rw [hf] at hok
      simp only [Except.ok.injEq, Prod.mk.injEq] at hok
      obtain ⟨h1, -⟩ := hok
      subst h1
      unfold submitQuiz
      rw [no_active_after_complete _ _ _ _ _ _ h]
  · intro now2
    cases hf : quiz.attempts.find? (isActiveFor studentId) with
    | none =>
      unfold submitQuiz
      rw [hf]
    | some a0 =>
      unfold submitQuiz
      rw [hf]
      rfl

/-- Witness for C3 at the worked example quiz, whose attempts list has one
in-progress attempt of student 7. -/
theorem submitQuiz_active_iff_witness :
    ∃ quiz1 r, submitQuiz exampleQuiz 7 exAnswersRight 50 = Except.ok (quiz1, r) :=
  (submitQuiz_active_iff exampleQuiz 7 exAnswersRight 50 (by decide)).2.1 (by decide)

/-- C4: the payload of a successful startQuiz carries each question only as
{questionText, options, marks} — no correct option index — so the whole
startQuiz response (success or error) is identical for any two quizzes that
differ only in their questions' correct option indices. -/
theorem startQuiz_hides_correct_answers (q1 q2 : Quiz) (studentId : Nat) (now : Int)
    (h : agreeExceptCorrectAnswer q1 q2) :
    (startQuiz q1 studentId now).map Prod.snd = (startQuiz q2 studentId now).map Prod.snd := by
  obtain ⟨ht, hd, hsub, hte, hq, htm, hdur, hsd, hed, hat, hia⟩ := h
  unfold startQuiz
  rw [hsd, hed, hat]
  by_cases hw : now < q2.startDate ∨ now > q2.endDate
  · rw [if_pos hw, if_pos hw]
  · rw [if_neg hw, if_neg hw]
    cases hf : q2.attempts.find? (fun a => a.student == studentId) with
    | some a => rfl
    | none =>
      simp only [Except.map]
      unfold toPayload
      simp only [ht, hd, hsub, hte, hq, htm, hdur, hsd, hed, hat, hia]

/-- Witness for C4: the worked example quiz and its copy with both correct
option indices flipped produce the same startQuiz response for student 9. -/
theorem startQuiz_hides_correct_answers_witness :
    (startQuiz exampleQuiz 9 50).map Prod.snd = (startQuiz exampleQuizAlt 9 50).map Prod.snd :=
  startQuiz_hides_correct_answers exampleQuiz exampleQuizAlt 9 50 (by decide)

/-- C5: for an existing quiz, startQuiz fails with QuizNotAvailable exactly
when now is before startDate or after endDate; both boundary instants pass
the availability check (the window is inclusive), and startQuiz succeeds
there for a quiz with a well-formed window when the student has no existing
attempt. -/
theorem startQuiz_window (quiz : Quiz) (studentId : Nat) (now : Int) :
    (startQuiz quiz studentId now = Except.error QuizError.QuizNotAvailable ↔
      now < quiz.startDate ∨ quiz.endDate < now)
    ∧ ((now = quiz.startDate ∨ now = quiz.endDate) → quiz.startDate ≤ quiz.endDate →
        (∀ a ∈ quiz.attempts, a.student ≠ studentId) →
        ∃ quiz1 payload, startQuiz quiz studentId now = Except.ok (quiz1, payload)) := by
  constructor
  · by_cases hw : now < quiz.startDate ∨ now > quiz.endDate
    · unfold startQuiz
      rw [if_pos hw]
      simpa using hw
    · unfold startQuiz
      rw [if_neg hw]
      constructor
      · intro hbad
        cases hf : quiz.attempts.find? (fun a => a.student == studentId) with
        | none =>
          rw [hf] at hbad
          cases hbad
        | some a =>
          rw [hf] at hbad
          cases hbad
      · intro hout
        exact absurd hout (by simpa using hw)
  · intro hb hwf hno
    have hw : ¬ (now < quiz.startDate ∨ now > quiz.endDate) := by
      push_neg
      cases hb with
      | inl h0 => exact ⟨le_of_eq h0.symm, h0 ▸ hwf⟩
      | inr h0 => exact ⟨h0 ▸ hwf, le_of_eq h0⟩
    unfold startQuiz
    rw [if_neg hw]
    cases hf : quiz.attempts.find? (fun a => a.student == studentId) with
    | none => exact ⟨_, _, rfl⟩
    | some a =>
      exfalso
      have hmem := List.mem_of_find?_eq_some hf
      have := List.find?_some hf
      simp only [beq_iff_eq] at this
      exact hno a hmem this

/-- Witness for C5 at the boundary: starting the race quiz exactly at its
endDate (100) succeeds for student 7, who has no attempt. -/
theorem startQuiz_window_witness :
    ∃ quiz1 payload, startQuiz raceQuiz 7 100 = Except.ok (quiz1, payload) :=
  (startQuiz_window raceQuiz 7 100).2 (by decide) (by decide) (by decide)

/-- C6 counterexample: a create request whose single question has an empty
options list (so its correctAnswer 0 indexes no option) is accepted by the
route validation, the controller and the schema validation, and the quiz is
persisted with that question unchanged — createQuiz does not fail. -/
theorem createQuiz_accepts_invalid_question :
    createQuizRoute oneSubject 2 badRequest = Except.ok badQuizCreated ∧
    badQuestion ∈ badQuizCreated.questions ∧
    badQuestion.options.length = 0 ∧
    ¬ badQuestion.correctAnswer < (badQuestion.options.length : Int) := by
  refine ⟨rfl, ?_, rfl, by decide⟩
  simp [badQuizCreated]

/-- C6 amended: the only per-question conditions enforced on the createQuiz
path are the schema's — nonempty question text, correctOptionIndex ≥ 0 and
marks ≥ 1; questions are persisted verbatim, with no check that options is
nonempty or that correctOptionIndex is below options.length (and the
route's express-validator chain rejects nothing, its result being unread). -/
theorem createQuiz_schema_checks (subjects : List Subject) (userId : Nat)
    (r : CreateQuizRequest) (quiz : Quiz)
    (h : createQuizRoute subjects userId r = Except.ok quiz) :
    quiz.questions = r.questions ∧
    ∀ q ∈ quiz.questions, q.questionText ≠ "" ∧ 0 ≤ q.correctAnswer ∧ 1 ≤ q.marks := by
  unfold createQuizRoute createQuiz at h
  cases hf : subjects.find? (fun s => s.id == r.subjectId) with
  | none =>
    rw [hf] at h
    cases h
  | some subject =>
    rw [hf] at h
    simp only [] at h
    by_cases hte : (subject.teacher != userId) = true
    · rw [if_pos hte] at h
      cases h
    · rw [if_neg hte] at h
      by_cases hsv : quizSchemaValid
          { title := r.title, description := r.description, subject := r.subjectId,
            teacher := userId, questions := r.questions,
            totalMarks := r.questions.foldl (fun sum q => sum + q.marks) 0,
            duration := r.duration, startDate := r.startDate, endDate := r.endDate,
            attempts := [], isActive := true } = true
      · rw [if_pos hsv] at h
        simp only [Except.ok.injEq] at h
        subst h
        refine ⟨rfl, ?_⟩
        intro q hq
        unfold quizSchemaValid at hsv
        simp only [Bool.and_eq_true, decide_eq_true_eq, List.all_eq_true] at hsv
        have := hsv.2 q hq
        unfold questionSchemaValid at this
        simp only [Bool.and_eq_true, decide_eq_true_eq, bne_iff_ne, ne_eq] at this
        exact ⟨this.1.1, this.1.2, this.2⟩
      · rw [if_neg hsv] at h
        cases h

/-- Witness for C6 amended: a well-formed request is persisted, its question
kept verbatim with nonnegative correct index and positive marks. -/
theorem createQuiz_schema_checks_witness :
    exQuestion0.questionText ≠ "" ∧ 0 ≤ exQuestion0.correctAnswer ∧ 1 ≤ exQuestion0.marks :=
  (createQuiz_schema_checks oneSubject 2 goodRequest
    { title := "t2", description := "", subject := 1, teacher := 2,
      questions := [exQuestion0], totalMarks := 5, duration := 10,
      startDate := 0, endDate := 100, attempts := [], isActive := true } rfl).2
    exQuestion0 (by simp)

theorem map_filter_eq_filterMap {α β : Type} (p : α → Bool) (f : α → β) (l : List α) :
    (l.filter p).map f = l.filterMap (fun a => if p a then some (f a) else none) := by
  induction l with
  | nil => rfl
  | cons a rest ih =>
    by_cases hp : p a = true <;> simp [hp, List.filter_cons, ih]

/-- C7: getQuizResults fails with Forbidden exactly when the requester is
neither the quiz's owning teacher nor an admin; on success it returns the
quiz title, totalMarks, exactly the completed attempts (in order, each
reduced to student, score, percentage, submittedAt — in-progress attempts
excluded), and totalStudents equal to the number of completed attempts. -/
theorem getQuizResults_access (quiz : Quiz) (requester : Requester) :
    (getQuizResults quiz requester = Except.error QuizError.Forbidden ↔
      (quiz.teacher ≠ requester.id ∧ requester.role ≠ Role.admin))
    ∧ (∀ res, getQuizResults quiz requester = Except.ok res →
        res.quizTitle = quiz.title ∧ res.totalMarks = quiz.totalMarks ∧
        res.results = quiz.attempts.filterMap (fun a =>
          if a.status == AttemptStatus.completed then some (reduceAttempt a) else none) ∧
        res.totalStudents = quiz.attempts.countP (fun a => a.status == AttemptStatus.completed)) := by
  constructor
  · unfold getQuizResults
    by_cases hc : quiz.teacher ≠ requester.id ∧ requester.role ≠ Role.admin
    · rw [if_pos hc]
      simpa using hc
    · rw [if_neg hc]
      constructor
      · intro hbad
        cases hbad
      · intro hcon
        exact absurd hcon hc
  · intro res hok
    unfold getQuizResults at hok
    by_cases hc : quiz.teacher ≠ requester.id ∧ requester.role ≠ Role.admin
    · rw [if_pos hc] at hok
      cases hok
    · rw [if_neg hc] at hok
      simp only [Except.ok.injEq] at hok
      subst hok
      refine ⟨rfl, rfl, ?_, ?_⟩
      · exact map_filter_eq_filterMap _ reduceAttempt quiz.attempts
      · simp only []
        rw [List.countP_eq_length_filter]
        simp

/-- Witness for C7: the owning teacher (id 2) reads the example quiz's
results; the in-progress attempt of student 7 is excluded, so the returned
totalStudents equals the count of completed attempts, zero. -/
theorem getQuizResults_access_witness :
    QuizResults.totalStudents
        { quizTitle := "example", totalMarks := 8, totalStudents := 0, results := [] } =
      exampleQuiz.attempts.countP (fun a => a.status == AttemptStatus.completed) :=
  ((getQuizResults_access exampleQuiz { id := 2, role := Role.teacher }).2
    { quizTitle := "example", totalMarks := 8, totalStudents := 0, results := [] } rfl).2.2.2

/-- C8: the claim that the store's atomic conditional push makes at most one
of two concurrent startQuiz calls succeed fails on the code: startQuiz is a
read-check-append-save over the whole document, so in the interleaving where
both calls read the stored quiz before either save — admitted by that
pattern — both calls respond success for the same (quiz, student). -/
theorem concurrent_start_both_succeed :
    startSucceeded (concurrentStartResponses raceQuiz 7 50).1 = true ∧
    startSucceeded (concurrentStartResponses raceQuiz 7 50).2 = true := by
  exact ⟨rfl, rfl⟩

/-- C9: scoring is order-independent — for any permutation of the answers
list, the submitQuiz score (both the accumulated value and the value in the
response) is unchanged. -/
theorem submitQuiz_order_independent (quiz : Quiz) (studentId : Nat)
    (answers1 answers2 : List Answer) (now : Int) (hperm : answers1.Perm answers2) :
    computeScore quiz.questions answers1 = computeScore quiz.questions answers2 ∧
    (submitQuiz quiz studentId answers1 now).map (fun p => p.2.score) =
      (submitQuiz quiz studentId answers2 now).map (fun p => p.2.score) := by
  have hs : computeScore quiz.questions answers1 = computeScore quiz.questions answers2 := by
    rw [computeScore_eq_specScore, computeScore_eq_specScore]
    unfold specScore
    exact (hperm.map (answerMarks quiz.questions)).sum_eq
  refine ⟨hs, ?_⟩
  cases hf : quiz.attempts.find? (isActiveFor studentId) with
  | none =>
    unfold submitQuiz
    rw [hf]
  | some a0 =>
    unfold submitQuiz
    rw [hf]
    simp only [Except.map, hs]

/-- Witness for C9: swapping the two answers of the worked example leaves
the score unchanged. -/
theorem submitQuiz_order_independent_witness :
    computeScore exampleQuiz.questions [⟨0, 1⟩, ⟨1, 0⟩] =
      computeScore exampleQuiz.questions [⟨1, 0⟩, ⟨0, 1⟩] :=
  (submitQuiz_order_independent exampleQuiz 7 [⟨0, 1⟩, ⟨1, 0⟩] [⟨1, 0⟩, ⟨0, 1⟩] 50
    (List.Perm.swap _ _ _)).1

theorem updateFirst_eq_set (p : Attempt → Bool) (f : Attempt → Attempt) (l : List Attempt)
    (a : Attempt) (h : l.find? p = some a) :
    ∃ i, l[i]? = some a ∧ p a = true ∧ updateFirst p f l = l.set i (f a) := by
  induction l with
  | nil => cases h
  | cons b rest ih =>
    by_cases hp : p b = true
    · rw [List.find?_cons_of_pos _ hp] at h
      simp only [Option.some.injEq] at h
      subst h
      exact ⟨0, by simp, hp, by unfold updateFirst; rw [if_pos hp]; rfl⟩
    · rw [List.find?_cons_of_neg _ hp] at h
      obtain ⟨i, h1, h2, h3⟩ := ih h
      refine ⟨i + 1, by simpa using h1, h2, ?_⟩
      unfold updateFirst
      rw [if_neg hp, h3]
      rfl

/-- C10: a successful submitQuiz changes nothing but the first matching
in-progress attempt, which is completed in place (answers, score,
percentage, submittedAt, status assigned; student and startedAt kept by
completeAttempt); the quiz's title, description, subject, teacher,
questions, totalMarks, duration, dates, isActive and every other attempt
are unchanged. -/
theorem submitQuiz_frame (quiz : Quiz) (studentId : Nat) (answers : List Answer) (now : Int)
    (quiz1 : Quiz) (r : SubmitResult)
    (h : submitQuiz quiz studentId answers now = Except.ok (quiz1, r)) :
    quiz1.title = quiz.title ∧ quiz1.description = quiz.description ∧
    quiz1.subject = quiz.subject ∧ quiz1.teacher = quiz.teacher ∧
    quiz1.questions = quiz.questions ∧ quiz1.totalMarks = quiz.totalMarks ∧
    quiz1.duration = quiz.duration ∧ quiz1.startDate = quiz.startDate ∧
    quiz1.endDate = quiz.endDate ∧ quiz1.isActive = quiz.isActive ∧
    ∃ i a, quiz.attempts[i]? = some a ∧ a.student = studentId ∧
      a.status = AttemptStatus.inProgress ∧
      quiz1.attempts = quiz.attempts.set i (completeAttempt answers r.score r.percentage now a) ∧
      ∀ j, j ≠ i → quiz1.attempts[j]? = quiz.attempts[j]? := by
  unfold submitQuiz at h
  cases hf : quiz.attempts.find? (isActiveFor studentId) with
  | none =>
    rw [hf] at h
    cases h
  | some a0 =>
    rw [hf] at h
    simp only [Except.ok.injEq, Prod.mk.injEq] at h
    obtain ⟨h1, h2⟩ := h
    subst h1
    subst h2
    refine ⟨rfl, rfl, rfl, rfl, rfl, rfl, rfl, rfl, rfl, rfl, ?_⟩
    obtain ⟨i, hi, hpa, hset⟩ := updateFirst_eq_set (isActiveFor studentId) _ quiz.attempts a0 hf
    obtain ⟨hstud, hstat⟩ := (isActiveFor_eq_true studentId a0).mp hpa
    refine ⟨i, a0, hi, hstud, hstat, ?_, ?_⟩
    · exact hset
    · intro j hj
      simp only [hset]
      exact List.getElem?_set_ne (fun hx => hj hx.symm)

/-- Witness for C10: the worked example submission changes only the attempt
of student 7; the questions list is untouched. -/
theorem submitQuiz_frame_witness :
    exQuiz1.questions = exampleQuiz.questions :=
  (submitQuiz_frame exampleQuiz 7 exAnswersRight 50 exQuiz1 exRes rfl).2.2.2.2.1

end QuizEngine
